import Mathlib

/-!
Shallow embedding of the story-voice-generator orchestration core:
the ElevenLabs provider client (src/lib/elevenlabs.ts), the two server
proxy endpoints (src/app/api/generate-voice/route.ts and
src/app/api/voices/route.ts) and the client orchestrator
(src/app/page.tsx).  External effects (the provider fetch, the browser
fetch) are passed in as explicit outcome values; strings are Lean
strings; binary payloads are lists of bytes.
-/

namespace StoryVoice

/-! ## JavaScript string trim, modelled on lists of characters -/

/-- Model of dropping leading characters satisfying a predicate, as
JavaScript trim does from the left end. -/
def dropLeading (p : Char → Bool) : List Char → List Char
  | [] => []
  | c :: cs => if p c then dropLeading p cs else c :: cs

/-- Character list underlying JavaScript String.prototype.trim: drop
whitespace from the front, then from the back (via reverse). -/
def jsTrimList (cs : List Char) : List Char :=
  (dropLeading Char.isWhitespace
    ((dropLeading Char.isWhitespace cs).reverse)).reverse

/-- Model of JavaScript String.prototype.trim. -/
def jsTrim (s : String) : String :=
  String.mk (jsTrimList s.toList)

/-! ## Data model (src/types/index.ts, src/lib/elevenlabs.ts) -/

/-- Voice shape returned to the client: only the four reduced fields. -/
structure Voice where
  voice_id : String
  name : String
  description : Option String
  category : Option String
deriving DecidableEq, Repr

/-- Raw voice record as returned by the provider voice catalog,
including the fields the client mapping drops. -/
structure RawVoice where
  voice_id : String
  name : String
  description : Option String
  category : Option String
  labels : List (String × String)
  preview_url : Option String
deriving DecidableEq, Repr

/-- The mapping applied in fetchElevenLabsVoices: keep only the four
fields needed downstream. -/
def mapVoice (r : RawVoice) : Voice :=
  { voice_id := r.voice_id, name := r.name,
    description := r.description, category := r.category }

/-- ElevenLabsError: message, optional upstream status code, optional
raw response body (kept for server-side logging only). -/
structure ElevenLabsError where
  message : String
  statusCode : Option Nat
  responseBody : Option String
deriving DecidableEq, Repr

/-- Outcome of the single fetch to the external provider, supplied as
an explicit parameter: success payload, non-ok HTTP reply with status,
status text and raw body, or a network-level failure (fetch threw). -/
inductive FetchOutcome (α : Type) where
  | success (payload : α)
  | httpError (status : Nat) (statusText : String) (body : String)
  | networkFailure (msg : String)
deriving DecidableEq, Repr

/-- Result of a provider-client call: ok value, a thrown
ElevenLabsError, or a thrown non-ElevenLabsError exception. -/
inductive LibResult (α : Type) where
  | ok (v : α)
  | elErr (e : ElevenLabsError)
  | thrown (msg : String)
deriving DecidableEq, Repr

/-! ## Provider client (src/lib/elevenlabs.ts) -/

/-- fetchElevenLabsVoices: local check that the key is truthy, then the
fetch; non-ok replies throw an ElevenLabsError carrying status and raw
body; the success payload is mapped to the reduced Voice shape. -/
def fetchElevenLabsVoices (apiKey : String)
    (outcome : FetchOutcome (List RawVoice)) : LibResult (List Voice) :=
  if apiKey = "" then
    .elErr ⟨"API key is required", none, none⟩
  else
    match outcome with
    | .success raws => .ok (raws.map mapVoice)
    | .httpError status statusText body =>
        .elErr ⟨"Failed to fetch voices: " ++ statusText, some status, some body⟩
    | .networkFailure msg => .thrown msg

/-- generateSpeech: local fail-fast checks on key, text and voice id,
then the synthesis fetch; non-ok replies throw an ElevenLabsError whose
message is classified by status and which preserves status and raw
body; on success the exact binary payload is returned. -/
def generateSpeech (apiKey text voiceId : String)
    (outcome : FetchOutcome (List Nat)) : LibResult (List Nat) :=
  if apiKey = "" then
    .elErr ⟨"API key is required", none, none⟩
  else if text = "" ∨ jsTrim text = "" then
    .elErr ⟨"Text is required and cannot be empty", none, none⟩
  else if voiceId = "" then
    .elErr ⟨"Voice ID is required", none, none⟩
  else
    match outcome with
    | .success bytes => .ok bytes
    | .httpError status statusText body =>
        let message :=
          if status = 401 then "Invalid API key"
          else if status = 422 then "Invalid request: check text length and voice ID"
          else if status = 429 then "Rate limit exceeded: please try again later"
          else "Failed to generate speech: " ++ statusText
        .elErr ⟨message, some status, some body⟩
    | .networkFailure msg => .thrown msg

/-! ## Shared route helpers -/

/-- The configuration check both routes run first:
not apiKey, or apiKey equal to the placeholder value. -/
def apiKeyNotConfigured : Option String → Bool
  | none => true
  | some k => k = "" || k = "your_key_here"

/-- JavaScript error.statusCode or 500: undefined and 0 are falsy. -/
def statusOr500 : Option Nat → Nat
  | none => 500
  | some 0 => 500
  | some n => n

/-- Digit grouping used by Number.prototype.toLocaleString: insert a
comma every three digits from the right (input is the reversed digit
list). -/
def groupThrees : List Char → List Char
  | a :: b :: c :: d :: rest => a :: b :: c :: ',' :: groupThrees (d :: rest)
  | l => l

/-- Model of Number.prototype.toLocaleString for a natural number. -/
def natToLocaleString (n : Nat) : String :=
  String.mk ((groupThrees (toString n).toList.reverse).reverse)

/-! ## Generate endpoint (src/app/api/generate-voice/route.ts) -/

/-- A JSON field of the parsed request body as the route sees it:
absent, null, a string, a number or a boolean. -/
inductive JsField where
  | missing
  | jnull
  | jstr (s : String)
  | jnum (n : Int)
  | jbool (b : Bool)
deriving DecidableEq, Repr

/-- The request body the route destructures. -/
structure GenerateVoiceRequestBody where
  text : JsField
  voice_id : JsField
deriving DecidableEq, Repr

/-- The check `!x || typeof x !== "string"`: true for absent, null,
non-string values, and the falsy empty string. -/
def fieldMissingOrNotString : JsField → Bool
  | .jstr s => s = ""
  | _ => true

/-- The string held by a field, defaulting to empty. -/
def JsField.asString : JsField → String
  | .jstr s => s
  | _ => ""

/-- Body of the generate-endpoint response: a JSON error envelope
with success equal to false, or the raw audio bytes. -/
inductive GenRespBody where
  | errJson (error : String)
  | audio (bytes : List Nat)
deriving DecidableEq, Repr

/-- Full observable result of one POST call, including the list of
calls made to the provider synthesize function with their arguments. -/
structure PostResult where
  status : Nat
  body : GenRespBody
  headers : List (String × String)
  synthCalls : List (String × String × String)
deriving DecidableEq, Repr

/-- A JSON error response with no headers set and no provider call. -/
def jsonErr (status : Nat) (msg : String) : PostResult :=
  { status := status, body := .errJson msg, headers := [], synthCalls := [] }

/-- POST /api/generate-voice.  The parsed request body is an option
(none models malformed JSON), the provider fetch outcome and the
configured maximum text length are explicit parameters. -/
def POST (env : Option String) (reqBody : Option GenerateVoiceRequestBody)
    (outcome : FetchOutcome (List Nat)) (maxTextLength : Nat) : PostResult :=
  if apiKeyNotConfigured env then
    jsonErr 500 "Server configuration error: API key not set"
  else
    let apiKey := env.getD ""
    match reqBody with
    | none => jsonErr 400 "Invalid JSON in request body"
    | some body =>
        if fieldMissingOrNotString body.text then
          jsonErr 400 "Text is required and must be a string"
        else
          let text := body.text.asString
          let trimmedText := jsTrim text
          if trimmedText.length < 1 then
            jsonErr 400 "Text cannot be empty"
          else if text.length > maxTextLength then
            jsonErr 400 ("Text exceeds maximum length of " ++
              natToLocaleString maxTextLength ++ " characters")
          else if fieldMissingOrNotString body.voice_id then
            jsonErr 400 "Voice ID is required and must be a string"
          else
            let voiceId := body.voice_id.asString
            match generateSpeech apiKey trimmedText voiceId outcome with
            | .ok audioBuffer =>
                { status := 200, body := .audio audioBuffer,
                  headers :=
                    [("Content-Type", "audio/mpeg"),
                     ("Content-Length", toString audioBuffer.length),
                     ("Cache-Control", "private, max-age=3600"),
                     ("Content-Disposition", "inline; filename=\"generated-audio.mp3\"")],
                  synthCalls := [(apiKey, trimmedText, voiceId)] }
            | .elErr e =>
                let statusCode := statusOr500 e.statusCode
                let clientMessage :=
                  if statusCode = 401 then "Authentication failed with speech service"
                  else if statusCode = 422 then "Invalid request: please check your text and try again"
                  else if statusCode = 429 then "Speech service rate limit exceeded, please try again later"
                  else "Failed to generate speech"
                { status := if statusCode ≥ 500 then 500 else statusCode,
                  body := .errJson clientMessage, headers := [],
                  synthCalls := [(apiKey, trimmedText, voiceId)] }
            | .thrown _ =>
                { status := 500,
                  body := .errJson "An unexpected error occurred while generating speech",
                  headers := [],
                  synthCalls := [(apiKey, trimmedText, voiceId)] }

/-- Value of a response header, by name. -/
def headerValue (r : PostResult) (name : String) : Option String :=
  (r.headers.find? (fun p => p.fst == name)).map Prod.snd

/-! ## Voices endpoint (src/app/api/voices/route.ts) -/

/-- Body of the voices-endpoint response: the success envelope with the
voices array, or the error envelope. -/
inductive VoicesBody where
  | okVoices (voices : List Voice)
  | errBody (error : String)
deriving DecidableEq, Repr

/-- Observable result of one GET call to the voices endpoint. -/
structure VoicesResponse where
  status : Nat
  body : VoicesBody
deriving DecidableEq, Repr

/-- GET /api/voices. -/
def GET (env : Option String)
    (outcome : FetchOutcome (List RawVoice)) : VoicesResponse :=
  if apiKeyNotConfigured env then
    ⟨500, .errBody "Server configuration error: API key not set"⟩
  else
    let apiKey := env.getD ""
    match fetchElevenLabsVoices apiKey outcome with
    | .ok voices => ⟨200, .okVoices voices⟩
    | .elErr e =>
        let statusCode := statusOr500 e.statusCode
        let clientMessage :=
          if statusCode = 401 then "Invalid API key configuration"
          else if statusCode = 429 then "Rate limit exceeded, please try again later"
          else "Failed to fetch voices"
        ⟨if statusCode ≥ 500 then 500 else statusCode, .errBody clientMessage⟩
    | .thrown _ => ⟨500, .errBody "An unexpected error occurred"⟩

/-! ## Client orchestrator (src/app/page.tsx) -/

/-- Orchestrator state: the React state of the Home component, plus an
explicit account of the transient audio resources: a fresh-handle
counter, the handles created by URL.createObjectURL, the handles
released by URL.revokeObjectURL, and a count of generate requests
issued. -/
structure OrchState where
  storyText : String
  voices : List Voice
  selectedVoiceId : Option String
  audioUrl : Option Nat
  isLoadingVoices : Bool
  isGenerating : Bool
  error : Option String
  nextUrl : Nat
  createdUrls : List Nat
  releasedUrls : List Nat
  requestsMade : Nat
deriving DecidableEq, Repr

/-- The guard `!selectedVoiceId`: falsy when unset or the empty string. -/
def voiceFalsy : Option String → Bool
  | none => true
  | some v => v = ""

/-- setAudioUrl together with the cleanup effect keyed on audioUrl:
when the value actually changes, the effect cleanup revokes (releases)
the previously held handle, if any. -/
def setAudioUrl (s : OrchState) (v : Option Nat) : OrchState :=
  if s.audioUrl = v then s
  else
    match s.audioUrl with
    | some u => { s with audioUrl := v, releasedUrls := s.releasedUrls ++ [u] }
    | none => { s with audioUrl := v }

/-- Observable outcome of the fetch to the generate endpoint as the
orchestrator sees it: an HTTP reply (ok flag, status, declared content
type, error field of the parsed JSON envelope when present), or a
network-level failure. -/
inductive GenOutcome where
  | httpReply (ok : Bool) (status : Nat) (contentType : Option String)
      (errField : Option String)
  | netFail
deriving DecidableEq, Repr

/-- contentType?.includes of the audio MPEG type: an absent header is
falsy; otherwise a substring test. -/
def ctIncludesAudioMpeg : Option String → Bool
  | none => false
  | some ct => decide ("audio/mpeg".toList <:+: ct.toList)

/-- data.error or the fallback with the numeric status: an absent or
empty error field is falsy. -/
def errOrFallback (errField : Option String) (status : Nat) : String :=
  match errField with
  | some m => if m = "" then "Generation failed (" ++ toString status ++ ")" else m
  | none => "Generation failed (" ++ toString status ++ ")"

/-- handleGenerate: the guard, then the state updates of one generate
attempt, with the fetch outcome passed in explicitly.  All terminal
paths end by clearing isGenerating (the finally block). -/
def handleGenerate (s : OrchState) (o : GenOutcome) : OrchState :=
  if jsTrim s.storyText = "" ∨ voiceFalsy s.selectedVoiceId = true then s
  else
    let s1 : OrchState := { s with isGenerating := true, error := none }
    let s2 := setAudioUrl s1 none
    let s3 : OrchState := { s2 with requestsMade := s2.requestsMade + 1 }
    let s4 :=
      match o with
      | .netFail => { s3 with error := some "Network error. Please try again." }
      | .httpReply ok status contentType errField =>
          if ok = false then
            { s3 with error := some (errOrFallback errField status) }
          else if ctIncludesAudioMpeg contentType then
            let u := s3.nextUrl
            let s' : OrchState :=
              { s3 with nextUrl := u + 1, createdUrls := s3.createdUrls ++ [u] }
            setAudioUrl s' (some u)
          else
            { s3 with error := some "Unexpected response format from server" }
    { s4 with isGenerating := false }

/-- Unmount of the Home component: the cleanup effect revokes the
currently held handle, if any; revoking a handle that was never
created is a no-op. -/
def teardown (s : OrchState) : OrchState :=
  match s.audioUrl with
  | some u => { s with audioUrl := none, releasedUrls := s.releasedUrls ++ [u] }
  | none => s

/-- Initial state of the Home component. -/
def initOrch (txt : String) (vid : Option String) : OrchState :=
  { storyText := txt, voices := [], selectedVoiceId := vid, audioUrl := none,
    isLoadingVoices := true, isGenerating := false, error := none,
    nextUrl := 0, createdUrls := [], releasedUrls := [], requestsMade := 0 }

/-- The generate-endpoint outcome of a fully successful generation. -/
def successOutcome : GenOutcome :=
  .httpReply true 200 (some "audio/mpeg") none

/-- n consecutive successful generations. -/
def genN (s : OrchState) : Nat → OrchState
  | 0 => s
  | n + 1 => handleGenerate (genN s n) successOutcome

/-! ## Lemmas about the trim model -/

/-- Whatever dropLeading returns starts with a character failing the
predicate. -/
theorem dropLeading_eq_cons {p : Char → Bool} :
    ∀ {cs : List Char} {c : Char} {cs' : List Char},
      dropLeading p cs = c :: cs' → p c = false := by
  intro cs
  induction cs with
  | nil => intro c cs' h; simp [dropLeading] at h
  | cons a l ih =>
      intro c cs' h
      by_cases hp : p a
      · rw [dropLeading, if_pos hp] at h
        exact ih h
      · rw [dropLeading, if_neg hp] at h
        injection h with h1 _
        subst h1
        simpa using hp

/-- dropLeading is the identity on a list whose head fails the
predicate. -/
theorem dropLeading_eq_self {p : Char → Bool} {cs : List Char}
    (h : ∀ c rest, cs = c :: rest → p c = false) :
    dropLeading p cs = cs := by
  cases cs with
  | nil => rfl
  | cons a l =>
      have hpa : p a = false := h a l rfl
      simp [dropLeading, hpa]

/-- dropLeading returns a suffix of its input. -/
theorem dropLeading_suffix (p : Char → Bool) (cs : List Char) :
    ∃ pre, cs = pre ++ dropLeading p cs := by
  induction cs with
  | nil => exact ⟨[], rfl⟩
  | cons a l ih =>
      by_cases hp : p a
      · obtain ⟨pre, hpre⟩ := ih
        exact ⟨a :: pre, by simp [dropLeading, hp]; exact hpre⟩
      · exact ⟨[], by simp [dropLeading, hp]⟩

/-- The character-list trim is idempotent. -/
theorem jsTrimList_idem (cs : List Char) :
    jsTrimList (jsTrimList cs) = jsTrimList cs := by
  unfold jsTrimList
  set A := dropLeading Char.isWhitespace cs with hA
  set B := dropLeading Char.isWhitespace A.reverse with hB
  have h1 : dropLeading Char.isWhitespace B.reverse = B.reverse := by
    apply dropLeading_eq_self
    intro c rest hcr
    obtain ⟨pre, hpre⟩ := dropLeading_suffix Char.isWhitespace A.reverse
    rw [← hB] at hpre
    have hA2 : A = B.reverse ++ pre.reverse := by
      have h := congrArg List.reverse hpre
      simpa [List.reverse_append] using h
    have hcons : dropLeading Char.isWhitespace cs = c :: (rest ++ pre.reverse) := by
      rw [← hA, hA2, hcr]
      simp
    exact dropLeading_eq_cons hcons
  have h2 : dropLeading Char.isWhitespace B = B := by
    apply dropLeading_eq_self
    intro c rest hcr
    rw [hB] at hcr
    exact dropLeading_eq_cons hcr
  rw [h1, List.reverse_reverse, h2]

/-- The string trim model is idempotent. -/
theorem jsTrim_idem (s : String) : jsTrim (jsTrim s) = jsTrim s :=
  congrArg String.mk (jsTrimList_idem s.toList)

/-- A nonempty string has positive length. -/
theorem length_pos_of_ne_empty {s : String} (h : s ≠ "") : 0 < s.length := by
  cases s with
  | mk data =>
      cases data with
      | nil => exact absurd rfl h
      | cons a l => simp [String.length]

/-- A string whose trim is nonempty is itself nonempty. -/
theorem jsTrim_ne_empty_of_arg {t : String} (h : jsTrim t ≠ "") : t ≠ "" := by
  intro he
  subst he
  exact h rfl

/-- The configuration check is false for a key that is neither empty
nor the placeholder. -/
theorem apiKeyNotConfigured_false {k : String} (h1 : k ≠ "")
    (h2 : k ≠ "your_key_here") : apiKeyNotConfigured (some k) = false := by
  simp [apiKeyNotConfigured, h1, h2]

/-! ## Claim theorems -/

/-- C9: with the credential environment variable absent, empty, or
equal to the placeholder value, every POST to the generate endpoint
returns HTTP 500 with the envelope error
"Server configuration error: API key not set", regardless of the
request body and of the provider, and never reaches body parsing or
validation. -/
theorem C9_config_error_precedes_validation (env : Option String)
    (reqBody : Option GenerateVoiceRequestBody)
    (outcome : FetchOutcome (List Nat)) (maxLen : Nat)
    (h : env = none ∨ env = some "" ∨ env = some "your_key_here") :
    POST env reqBody outcome maxLen =
      jsonErr 500 "Server configuration error: API key not set" := by
  have hc : apiKeyNotConfigured env = true := by
    rcases h with h | h | h <;> subst h <;> rfl
  rw [POST, hc]
  rfl

/-- C9 witness: a malformed-JSON body with an unset key yields 500,
not 400. -/
theorem C9_config_error_precedes_validation_witness :
    POST none none (.success []) 100000 =
      jsonErr 500 "Server configuration error: API key not set" :=
  C9_config_error_precedes_validation none none (.success []) 100000 (Or.inl rfl)

/-- POST rejects a body whose untrimmed text exceeds the limit with
400 and the rendered-limit message, no provider call made. -/
theorem POST_overlength (k : String) (hk1 : k ≠ "")
    (hk2 : k ≠ "your_key_here") (body : GenerateVoiceRequestBody)
    (o : FetchOutcome (List Nat)) (maxLen : Nat) (t : String)
    (hbt : body.text = .jstr t) (htr : jsTrim t ≠ "")
    (hlen : t.length > maxLen) :
    POST (some k) (some body) o maxLen =
      jsonErr 400 ("Text exceeds maximum length of " ++
        natToLocaleString maxLen ++ " characters") := by
  have hc := apiKeyNotConfigured_false hk1 hk2
  have hft : fieldMissingOrNotString (.jstr t) = false := by
    simp [fieldMissingOrNotString, jsTrim_ne_empty_of_arg htr]
  have hpos : ¬ (jsTrim t).length < 1 := by
    have := length_pos_of_ne_empty htr
    omega
  rw [POST, hc]
  simp [hft, hbt, JsField.asString, hpos, hlen]

/-- C1 counterexample: the claim says a trimmed-empty text yields the
message "Text cannot be empty", but the empty string is trimmed-empty,
is a present string field, and is caught by the JavaScript falsy check
with the message "Text is required and must be a string". -/
theorem C1_counterexample :
    (POST (some "key") (some ⟨.jstr "", .jstr "v"⟩) (.success [1]) 100000).status = 400 ∧
    (POST (some "key") (some ⟨.jstr "", .jstr "v"⟩) (.success [1]) 100000).body =
      .errJson "Text is required and must be a string" ∧
    (POST (some "key") (some ⟨.jstr "", .jstr "v"⟩) (.success [1]) 100000).body ≠
      .errJson "Text cannot be empty" := by
  refine ⟨rfl, rfl, ?_⟩
  decide

/-- C1 (amended): with a configured, non-placeholder credential, the
generate endpoint validates in order and short-circuits with 400 and
the stated message, never invoking the provider synthesize function:
malformed JSON yields "Invalid JSON in request body"; text missing,
not a string, or the falsy empty string yields
"Text is required and must be a string"; nonempty but trimmed-empty
text yields "Text cannot be empty"; untrimmed text longer than the
configured maximum yields a message carrying the rendered limit;
a missing, non-string or empty voice_id after a valid text yields
"Voice ID is required and must be a string". -/
theorem C1_validation_order (k : String) (hk1 : k ≠ "")
    (hk2 : k ≠ "your_key_here") (body : GenerateVoiceRequestBody)
    (o : FetchOutcome (List Nat)) (maxLen : Nat) :
    (POST (some k) none o maxLen = jsonErr 400 "Invalid JSON in request body") ∧
    (fieldMissingOrNotString body.text = true →
      POST (some k) (some body) o maxLen =
        jsonErr 400 "Text is required and must be a string") ∧
    (∀ t, body.text = .jstr t → t ≠ "" → jsTrim t = "" →
      POST (some k) (some body) o maxLen = jsonErr 400 "Text cannot be empty") ∧
    (∀ t, body.text = .jstr t → jsTrim t ≠ "" → t.length > maxLen →
      POST (some k) (some body) o maxLen =
        jsonErr 400 ("Text exceeds maximum length of " ++
          natToLocaleString maxLen ++ " characters")) ∧
    (∀ t, body.text = .jstr t → jsTrim t ≠ "" → t.length ≤ maxLen →
      fieldMissingOrNotString body.voice_id = true →
      POST (some k) (some body) o maxLen =
        jsonErr 400 "Voice ID is required and must be a string") := by
  have hc : apiKeyNotConfigured (some k) = false := apiKeyNotConfigured_false hk1 hk2
  refine ⟨?_, ?_, ?_, ?_, ?_⟩
  · rw [POST, hc]; rfl
  · intro hft
    rw [POST, hc]
    simp [hft]
  · intro t hbt ht htr
    have hft : fieldMissingOrNotString (.jstr t) = false := by
      simp [fieldMissingOrNotString, ht]
    rw [POST, hc]
    simp [hft, hbt, JsField.asString, htr]
  · intro t hbt htr hlen
    exact POST_overlength k hk1 hk2 body o maxLen t hbt htr hlen
  · intro t hbt htr hlen hvf
    have hft : fieldMissingOrNotString (.jstr t) = false := by
      simp [fieldMissingOrNotString, jsTrim_ne_empty_of_arg htr]
    have hpos : ¬ (jsTrim t).length < 1 := by
      have := length_pos_of_ne_empty htr
      omega
    have hnlen : ¬ t.length > maxLen := by omega
    rw [POST, hc]
    simp [hft, hbt, JsField.asString, hpos, hnlen, hvf]

/-- C1 witness: with a configured key, a malformed JSON body yields
400 "Invalid JSON in request body" and no synthesize call. -/
theorem C1_validation_order_witness :
    POST (some "key") none (.success []) 100000 =
      jsonErr 400 "Invalid JSON in request body" :=
  (C1_validation_order "key" (by decide) (by decide)
    ⟨.jstr "a", .jstr "v"⟩ (.success []) 100000).1

/-- statusOr500 is the identity on a nonzero status. -/
theorem statusOr500_some {ps : Nat} (h : ps ≠ 0) : statusOr500 (some ps) = ps := by
  cases ps with
  | zero => exact absurd rfl h
  | succ n => rfl

/-- POST on a configured key and a valid body, when the provider fetch
succeeds: the full observable result. -/
theorem POST_valid_success (k t v : String) (hk1 : k ≠ "")
    (hk2 : k ≠ "your_key_here") (htr : jsTrim t ≠ "") (hv : v ≠ "")
    (maxLen : Nat) (hlen : ¬ t.length > maxLen) (bytes : List Nat) :
    POST (some k) (some ⟨.jstr t, .jstr v⟩) (.success bytes) maxLen =
      { status := 200, body := .audio bytes,
        headers := [("Content-Type", "audio/mpeg"),
                    ("Content-Length", toString bytes.length),
                    ("Cache-Control", "private, max-age=3600"),
                    ("Content-Disposition", "inline; filename=\"generated-audio.mp3\"")],
        synthCalls := [(k, jsTrim t, v)] } := by
  have hc := apiKeyNotConfigured_false hk1 hk2
  have hft : fieldMissingOrNotString (.jstr t) = false := by
    simp [fieldMissingOrNotString, jsTrim_ne_empty_of_arg htr]
  have hfv : fieldMissingOrNotString (.jstr v) = false := by
    simp [fieldMissingOrNotString, hv]
  have hpos : ¬ (jsTrim t).length < 1 := by
    have := length_pos_of_ne_empty htr
    omega
  have hgs : generateSpeech k (jsTrim t) v (.success bytes) = .ok bytes := by
    have h2 : ¬ (jsTrim t = "" ∨ jsTrim (jsTrim t) = "") := by
      rw [jsTrim_idem]
      simp [htr]
    simp [generateSpeech, hk1, h2, hv]
  rw [POST, hc]
  simp [hft, hfv, hpos, hlen, JsField.asString, hgs]

/-- POST on a configured key and a valid body, when the provider
replies non-ok: the classified error is re-mapped status by status. -/
theorem POST_valid_httpError (k t v : String) (hk1 : k ≠ "")
    (hk2 : k ≠ "your_key_here") (htr : jsTrim t ≠ "") (hv : v ≠ "")
    (maxLen : Nat) (hlen : ¬ t.length > maxLen) (ps : Nat) (st b : String) :
    POST (some k) (some ⟨.jstr t, .jstr v⟩) (.httpError ps st b) maxLen =
      { status := if 500 ≤ statusOr500 (some ps) then 500 else statusOr500 (some ps),
        body := .errJson
          (if statusOr500 (some ps) = 401 then "Authentication failed with speech service"
           else if statusOr500 (some ps) = 422 then "Invalid request: please check your text and try again"
           else if statusOr500 (some ps) = 429 then "Speech service rate limit exceeded, please try again later"
           else "Failed to generate speech"),
        headers := [], synthCalls := [(k, jsTrim t, v)] } := by
  have hc := apiKeyNotConfigured_false hk1 hk2
  have hft : fieldMissingOrNotString (.jstr t) = false := by
    simp [fieldMissingOrNotString, jsTrim_ne_empty_of_arg htr]
  have hfv : fieldMissingOrNotString (.jstr v) = false := by
    simp [fieldMissingOrNotString, hv]
  have hpos : ¬ (jsTrim t).length < 1 := by
    have := length_pos_of_ne_empty htr
    omega
  have hgs : generateSpeech k (jsTrim t) v (.httpError ps st b) =
      .elErr ⟨(if ps = 401 then "Invalid API key"
        else if ps = 422 then "Invalid request: check text length and voice ID"
        else if ps = 429 then "Rate limit exceeded: please try again later"
        else "Failed to generate speech: " ++ st), some ps, some b⟩ := by
    have h2 : ¬ (jsTrim t = "" ∨ jsTrim (jsTrim t) = "") := by
      rw [jsTrim_idem]
      simp [htr]
    simp [generateSpeech, hk1, h2, hv]
  rw [POST, hc]
  simp [hft, hfv, hpos, hlen, JsField.asString, hgs]

/-- POST on a configured key and a valid body, when the provider fetch
throws a non-classified exception: generic 500. -/
theorem POST_valid_thrown (k t v : String) (hk1 : k ≠ "")
    (hk2 : k ≠ "your_key_here") (htr : jsTrim t ≠ "") (hv : v ≠ "")
    (maxLen : Nat) (hlen : ¬ t.length > maxLen) (m : String) :
    POST (some k) (some ⟨.jstr t, .jstr v⟩) (.networkFailure m) maxLen =
      { status := 500,
        body := .errJson "An unexpected error occurred while generating speech",
        headers := [], synthCalls := [(k, jsTrim t, v)] } := by
  have hc := apiKeyNotConfigured_false hk1 hk2
  have hft : fieldMissingOrNotString (.jstr t) = false := by
    simp [fieldMissingOrNotString, jsTrim_ne_empty_of_arg htr]
  have hfv : fieldMissingOrNotString (.jstr v) = false := by
    simp [fieldMissingOrNotString, hv]
  have hpos : ¬ (jsTrim t).length < 1 := by
    have := length_pos_of_ne_empty htr
    omega
  have hgs : generateSpeech k (jsTrim t) v (.networkFailure m) = .thrown m := by
    have h2 : ¬ (jsTrim t = "" ∨ jsTrim (jsTrim t) = "") := by
      rw [jsTrim_idem]
      simp [htr]
    simp [generateSpeech, hk1, h2, hv]
  rw [POST, hc]
  simp [hft, hfv, hpos, hlen, JsField.asString, hgs]

/-- C2 counterexample: the claim maps every provider status other than
401, 422 and 429 to HTTP 500, but the code passes statuses below 500
through unchanged: a provider 403 yields HTTP 403. -/
theorem C2_counterexample :
    (POST (some "key") (some ⟨.jstr "hello", .jstr "v1"⟩)
      (.httpError 403 "Forbidden" "raw") 100).status = 403 ∧
    (POST (some "key") (some ⟨.jstr "hello", .jstr "v1"⟩)
      (.httpError 403 "Forbidden" "raw") 100).status ≠ 500 := by
  refine ⟨rfl, ?_⟩
  decide

/-- C2 (amended): for a validated request whose provider call fails
with a classified error carrying a nonzero status, the endpoint
returns the JSON error envelope with: provider 401 mapped to HTTP 401
"Authentication failed with speech service", 422 to HTTP 422
"Invalid request: please check your text and try again", 429 to
HTTP 429 with a rate-limit message; every other provider status at or
above 500 collapses to HTTP 500, and every other status below 500
passes through unchanged, with the generic message
"Failed to generate speech". -/
theorem C2_provider_error_mapping (k t v : String) (hk1 : k ≠ "")
    (hk2 : k ≠ "your_key_here") (htr : jsTrim t ≠ "") (hv : v ≠ "")
    (maxLen : Nat) (hlen : ¬ t.length > maxLen) (ps : Nat) (hps : ps ≠ 0)
    (st b : String) :
    (ps = 401 →
      POST (some k) (some ⟨.jstr t, .jstr v⟩) (.httpError ps st b) maxLen =
        { status := 401, body := .errJson "Authentication failed with speech service",
          headers := [], synthCalls := [(k, jsTrim t, v)] }) ∧
    (ps = 422 →
      POST (some k) (some ⟨.jstr t, .jstr v⟩) (.httpError ps st b) maxLen =
        { status := 422, body := .errJson "Invalid request: please check your text and try again",
          headers := [], synthCalls := [(k, jsTrim t, v)] }) ∧
    (ps = 429 →
      POST (some k) (some ⟨.jstr t, .jstr v⟩) (.httpError ps st b) maxLen =
        { status := 429, body := .errJson "Speech service rate limit exceeded, please try again later",
          headers := [], synthCalls := [(k, jsTrim t, v)] }) ∧
    (ps ≠ 401 → ps ≠ 422 → ps ≠ 429 →
      POST (some k) (some ⟨.jstr t, .jstr v⟩) (.httpError ps st b) maxLen =
        { status := if 500 ≤ ps then 500 else ps,
          body := .errJson "Failed to generate speech",
          headers := [], synthCalls := [(k, jsTrim t, v)] }) := by
  have hmain := POST_valid_httpError k t v hk1 hk2 htr hv maxLen hlen ps st b
  rw [statusOr500_some hps] at hmain
  refine ⟨?_, ?_, ?_, ?_⟩
  · intro h; subst h; simpa using hmain
  · intro h; subst h; simpa using hmain
  · intro h; subst h; simpa using hmain
  · intro h1 h2 h3
    rw [hmain]
    simp [h1, h2, h3]

/-- C2 witness: provider 401 yields HTTP 401 with the authentication
message. -/
theorem C2_provider_error_mapping_witness :
    POST (some "key") (some ⟨.jstr "hello", .jstr "v1"⟩)
      (.httpError 401 "Unauthorized" "raw") 100 =
      { status := 401, body := .errJson "Authentication failed with speech service",
        headers := [], synthCalls := [("key", jsTrim "hello", "v1")] } :=
  (C2_provider_error_mapping "key" "hello" "v1" (by decide) (by decide)
    (by decide) (by decide) 100 (by decide) 401 (by decide)
    "Unauthorized" "raw").1 rfl

/-- C3 counterexample: the claim maps every provider status other than
401 and 429 to HTTP 500, but the voices endpoint passes statuses below
500 through unchanged: a provider 403 yields HTTP 403. -/
theorem C3_counterexample :
    GET (some "key") (.httpError 403 "Forbidden" "raw") =
      ⟨403, .errBody "Failed to fetch voices"⟩ ∧
    (GET (some "key") (.httpError 403 "Forbidden" "raw")).status ≠ 500 := by
  refine ⟨rfl, ?_⟩
  decide

/-- C3 (amended): with a configured credential, the voices endpoint
returns 200 and the success envelope carrying the provider voices
reduced to voice_id, name, description and category on provider
success; on provider failure it returns the error envelope with HTTP
401 for provider 401, 429 for provider 429, 500 for provider statuses
at or above 500 and for unclassified failures, while other provider
statuses below 500 pass through unchanged; and the response never
depends on the raw provider response body, so the raw body is never
leaked to the client. -/
theorem C3_voices_endpoint (k : String) (hk1 : k ≠ "")
    (hk2 : k ≠ "your_key_here") :
    (∀ raws, GET (some k) (.success raws) = ⟨200, .okVoices (raws.map mapVoice)⟩) ∧
    (∀ st b, GET (some k) (.httpError 401 st b) =
      ⟨401, .errBody "Invalid API key configuration"⟩) ∧
    (∀ st b, GET (some k) (.httpError 429 st b) =
      ⟨429, .errBody "Rate limit exceeded, please try again later"⟩) ∧
    (∀ ps st b, ps ≠ 0 → ps ≠ 401 → ps ≠ 429 →
      GET (some k) (.httpError ps st b) =
        ⟨if 500 ≤ ps then 500 else ps, .errBody "Failed to fetch voices"⟩) ∧
    (∀ m, GET (some k) (.networkFailure m) =
      ⟨500, .errBody "An unexpected error occurred"⟩) ∧
    (∀ ps st b1 b2, GET (some k) (.httpError ps st b1) =
      GET (some k) (.httpError ps st b2)) := by
  have hc := apiKeyNotConfigured_false hk1 hk2
  have hget : ∀ outcome, GET (some k) outcome =
      match fetchElevenLabsVoices k outcome with
      | .ok voices => ⟨200, .okVoices voices⟩
      | .elErr e =>
          ⟨if 500 ≤ statusOr500 e.statusCode then 500 else statusOr500 e.statusCode,
           .errBody (if statusOr500 e.statusCode = 401 then "Invalid API key configuration"
             else if statusOr500 e.statusCode = 429 then "Rate limit exceeded, please try again later"
             else "Failed to fetch voices")⟩
      | .thrown _ => ⟨500, .errBody "An unexpected error occurred"⟩ := by
    intro outcome
    rw [GET, hc]
    simp
  refine ⟨?_, ?_, ?_, ?_, ?_, ?_⟩
  · intro raws
    rw [hget]
    simp [fetchElevenLabsVoices, hk1]
  · intro st b
    rw [hget]
    simp [fetchElevenLabsVoices, hk1, statusOr500]
  · intro st b
    rw [hget]
    simp [fetchElevenLabsVoices, hk1, statusOr500]
  · intro ps st b hps h401 h429
    rw [hget]
    simp [fetchElevenLabsVoices, hk1, statusOr500_some hps, h401, h429]
  · intro m
    rw [hget]
    simp [fetchElevenLabsVoices, hk1]
  · intro ps st b1 b2
    rw [hget, hget]
    simp [fetchElevenLabsVoices, hk1]

/-- C3 witness: provider success with one raw voice record maps to the
reduced shape; the extra provider fields are dropped. -/
theorem C3_voices_endpoint_witness :
    GET (some "key")
      (.success [⟨"v1", "Rachel", none, some "premade",
        [("accent", "american")], some "http://x"⟩]) =
      ⟨200, .okVoices [⟨"v1", "Rachel", none, some "premade"⟩]⟩ :=
  (C3_voices_endpoint "key" (by decide) (by decide)).1
    [⟨"v1", "Rachel", none, some "premade", [("accent", "american")], some "http://x"⟩]

/-- C4: for every validated generate request whose provider call
succeeds, the response is 200, the body is byte-for-byte the provider
payload, Content-Type is audio/mpeg, Content-Length is the payload
byte count, Cache-Control permits private caching for one hour, and
Content-Disposition suggests an inline filename. -/
theorem C4_success_response (k t v : String) (hk1 : k ≠ "")
    (hk2 : k ≠ "your_key_here") (htr : jsTrim t ≠ "") (hv : v ≠ "")
    (maxLen : Nat) (hlen : ¬ t.length > maxLen) (bytes : List Nat) :
    POST (some k) (some ⟨.jstr t, .jstr v⟩) (.success bytes) maxLen =
      { status := 200, body := .audio bytes,
        headers := [("Content-Type", "audio/mpeg"),
                    ("Content-Length", toString bytes.length),
                    ("Cache-Control", "private, max-age=3600"),
                    ("Content-Disposition", "inline; filename=\"generated-audio.mp3\"")],
        synthCalls := [(k, jsTrim t, v)] } ∧
    headerValue (POST (some k) (some ⟨.jstr t, .jstr v⟩) (.success bytes) maxLen)
      "Content-Length" = some (toString bytes.length) ∧
    headerValue (POST (some k) (some ⟨.jstr t, .jstr v⟩) (.success bytes) maxLen)
      "Content-Type" = some "audio/mpeg" := by
  have hmain := POST_valid_success k t v hk1 hk2 htr hv maxLen hlen bytes
  refine ⟨hmain, ?_, ?_⟩ <;> rw [hmain] <;> rfl

/-- C4 witness: a concrete successful generation. -/
theorem C4_success_response_witness :
    POST (some "key") (some ⟨.jstr "hello", .jstr "v1"⟩) (.success [7, 8, 9]) 100 =
      { status := 200, body := .audio [7, 8, 9],
        headers := [("Content-Type", "audio/mpeg"),
                    ("Content-Length", "3"),
                    ("Cache-Control", "private, max-age=3600"),
                    ("Content-Disposition", "inline; filename=\"generated-audio.mp3\"")],
        synthCalls := [("key", jsTrim "hello", "v1")] } :=
  (C4_success_response "key" "hello" "v1" (by decide) (by decide) (by decide)
    (by decide) 100 (by decide) [7, 8, 9]).1

/-- C8: the generate endpoint is a pure function of the request pair
and the stubbed provider bytes, so two sequential calls at the same
validated input agree; both return exactly the provider bytes as body
and the byte count as Content-Length. -/
theorem C8_idempotent_generate (k t v : String) (hk1 : k ≠ "")
    (hk2 : k ≠ "your_key_here") (htr : jsTrim t ≠ "") (hv : v ≠ "")
    (maxLen : Nat) (hlen : ¬ t.length > maxLen) (bytes : List Nat) :
    POST (some k) (some ⟨.jstr t, .jstr v⟩) (.success bytes) maxLen =
      POST (some k) (some ⟨.jstr t, .jstr v⟩) (.success bytes) maxLen ∧
    (POST (some k) (some ⟨.jstr t, .jstr v⟩) (.success bytes) maxLen).body =
      .audio bytes ∧
    headerValue (POST (some k) (some ⟨.jstr t, .jstr v⟩) (.success bytes) maxLen)
      "Content-Length" = some (toString bytes.length) := by
  have hmain := POST_valid_success k t v hk1 hk2 htr hv maxLen hlen bytes
  refine ⟨rfl, ?_, ?_⟩
  · rw [hmain]
  · rw [hmain]
    rfl

/-- C8 witness: two concrete calls on the same pair and stub agree on
body and Content-Length. -/
theorem C8_idempotent_generate_witness :
    (POST (some "key") (some ⟨.jstr "once upon a time", .jstr "v1"⟩)
      (.success [1, 2]) 100).body = .audio [1, 2] :=
  (C8_idempotent_generate "key" "once upon a time" "v1" (by decide) (by decide)
    (by decide) (by decide) 100 (by decide) [1, 2]).2.1

/-- C10: the length bound is checked on the untrimmed text, while the
provider synthesize function receives the trimmed text: an untrimmed
text over the limit is rejected with 400 even if its trim fits, and a
text within the limit reaches the provider with leading and trailing
whitespace removed, whatever the provider then does. -/
theorem C10_trimmed_text_to_provider (k t v : String) (hk1 : k ≠ "")
    (hk2 : k ≠ "your_key_here") (htr : jsTrim t ≠ "") (hv : v ≠ "")
    (maxLen : Nat) (o : FetchOutcome (List Nat)) :
    (t.length > maxLen →
      POST (some k) (some ⟨.jstr t, .jstr v⟩) o maxLen =
        jsonErr 400 ("Text exceeds maximum length of " ++
          natToLocaleString maxLen ++ " characters")) ∧
    (¬ t.length > maxLen →
      (POST (some k) (some ⟨.jstr t, .jstr v⟩) o maxLen).synthCalls =
        [(k, jsTrim t, v)]) := by
  constructor
  · intro hlen
    exact POST_overlength k hk1 hk2 ⟨.jstr t, .jstr v⟩ o maxLen t rfl htr hlen
  · intro hlen
    cases o with
    | success bytes =>
        rw [POST_valid_success k t v hk1 hk2 htr hv maxLen hlen bytes]
    | httpError ps st b =>
        rw [POST_valid_httpError k t v hk1 hk2 htr hv maxLen hlen ps st b]
    | networkFailure m =>
        rw [POST_valid_thrown k t v hk1 hk2 htr hv maxLen hlen m]

/-- C10 witness: a padded text of untrimmed length 6 with limit 10 is
accepted and the provider receives the trimmed text. -/
theorem C10_trimmed_text_to_provider_witness :
    (POST (some "key") (some ⟨.jstr "  hi  ", .jstr "v1"⟩)
      (.success []) 10).synthCalls = [("key", jsTrim "  hi  ", "v1")] :=
  (C10_trimmed_text_to_provider "key" "  hi  " "v1" (by decide) (by decide)
    (by decide) (by decide) 10 (.success [])).2 (by decide)

/-- Closed form of the orchestrator state after n consecutive
successful generations from the initial state with guard-passing
inputs. -/
theorem genN_closed (txt vid : String) (htr : jsTrim txt ≠ "") (hv : vid ≠ "") :
    ∀ n, 1 ≤ n →
      genN (initOrch txt (some vid)) n =
        { storyText := txt, voices := [], selectedVoiceId := some vid,
          audioUrl := some (n - 1), isLoadingVoices := true,
          isGenerating := false, error := none, nextUrl := n,
          createdUrls := List.range n, releasedUrls := List.range (n - 1),
          requestsMade := n } := by
  have hguard : ∀ s : OrchState, s.storyText = txt → s.selectedVoiceId = some vid →
      ¬ (jsTrim s.storyText = "" ∨ voiceFalsy s.selectedVoiceId = true) := by
    intro s h1 h2
    rw [h1, h2]
    simp [voiceFalsy, htr, hv]
  have hct : ctIncludesAudioMpeg (some "audio/mpeg") = true := by decide
  intro n hn
  induction n with
  | zero => omega
  | succ m ih =>
      by_cases hm : 1 ≤ m
      · have hm1 : m - 1 + 1 = m := by omega
        rw [genN, ih hm, handleGenerate, if_neg (hguard _ rfl rfl)]
        simp only [successOutcome, hct, setAudioUrl, errOrFallback]
        simp [List.range_succ, hm1, ← List.range_succ]
      · have hm0 : m = 0 := by omega
        subst hm0
        rw [genN, genN, handleGenerate, if_neg (hguard _ rfl rfl)]
        simp [initOrch, successOutcome, hct, setAudioUrl, List.range_succ]

/-- C5: after N consecutive successful generations (N at least 1) from
the initial orchestrator state, exactly N-1 releases have occurred
(each created handle released exactly once, no duplicates), exactly
one reference is live (the last created handle and only it is created
but not released), and after teardown exactly N releases have
occurred; teardown with no reference ever created is a no-op. -/
theorem C5_single_live_resource (txt vid : String) (htr : jsTrim txt ≠ "")
    (hv : vid ≠ "") (n : Nat) (hn : 1 ≤ n) :
    ((genN (initOrch txt (some vid)) n).releasedUrls).length = n - 1 ∧
    (genN (initOrch txt (some vid)) n).releasedUrls = List.range (n - 1) ∧
    ((genN (initOrch txt (some vid)) n).releasedUrls).Nodup ∧
    (genN (initOrch txt (some vid)) n).createdUrls = List.range n ∧
    (genN (initOrch txt (some vid)) n).audioUrl = some (n - 1) ∧
    (∀ u, (u ∈ (genN (initOrch txt (some vid)) n).createdUrls ∧
      u ∉ (genN (initOrch txt (some vid)) n).releasedUrls) ↔ u = n - 1) ∧
    ((teardown (genN (initOrch txt (some vid)) n)).releasedUrls).length = n ∧
    (teardown (genN (initOrch txt (some vid)) n)).releasedUrls = List.range n ∧
    teardown (initOrch txt (some vid)) = initOrch txt (some vid) := by
  have h := genN_closed txt vid htr hv n hn
  have hm1 : n - 1 + 1 = n := by omega
  rw [h]
  refine ⟨by simp, rfl, List.nodup_range (n - 1), rfl, rfl, ?_, ?_, ?_, rfl⟩
  · intro u
    simp only [List.mem_range]
    omega
  · simp only [teardown]
    simp
    omega
  · simp only [teardown]
    rw [← List.range_succ]
    exact congrArg List.range (by omega)

/-- C5 witness: two successful generations release exactly one handle,
keep exactly one live, and teardown releases the second. -/
theorem C5_single_live_resource_witness :
    ((genN (initOrch "hi" (some "v1")) 2).releasedUrls).length = 2 - 1 :=
  (C5_single_live_resource "hi" "v1" (by decide) (by decide) 2 (by decide)).1

/-- C6: whenever the generate action passes its guard and starts a
request, isGenerating is false once the action terminates, on every
terminal path: stored audio, non-ok response, unexpected content type,
or a network-level exception. -/
theorem C6_isGenerating_cleared (s : OrchState) (o : GenOutcome)
    (h : ¬ (jsTrim s.storyText = "" ∨ voiceFalsy s.selectedVoiceId = true)) :
    (handleGenerate s o).isGenerating = false := by
  rw [handleGenerate, if_neg h]

/-- C6 witness: a network failure on a started generation still clears
isGenerating. -/
theorem C6_isGenerating_cleared_witness :
    (handleGenerate (initOrch "hi" (some "v1")) .netFail).isGenerating = false :=
  C6_isGenerating_cleared (initOrch "hi" (some "v1")) .netFail (by decide)

/-- C7: with empty or whitespace-only storyText, or with no voice
selected, the generate action returns the state unchanged for every
possible fetch outcome: no field changes, no error is set, and no
request is issued (requestsMade is unchanged). -/
theorem C7_guard_noop (s : OrchState) (o : GenOutcome)
    (h : jsTrim s.storyText = "" ∨ s.selectedVoiceId = none) :
    handleGenerate s o = s := by
  have hc : jsTrim s.storyText = "" ∨ voiceFalsy s.selectedVoiceId = true := by
    rcases h with h | h
    · exact Or.inl h
    · right
      rw [h]
      rfl
  rw [handleGenerate, if_pos hc]

/-- C7 witness: whitespace-only text makes the generate action inert
even on a would-be successful outcome. -/
theorem C7_guard_noop_witness :
    handleGenerate (initOrch "   " (some "v1")) successOutcome =
      initOrch "   " (some "v1") :=
  C7_guard_noop (initOrch "   " (some "v1")) successOutcome (Or.inl (by decide))

end StoryVoice
